import Mathlib

/-!
Verification of the WooCommerce MCP server's content-audit core
(src/server.py, with src/woo_client.py as the remote-API collaborator).

The remote store API and the tool dispatch layer are collaborators: each
operation takes the collaborator's outcome (an `Except String` value, the
`error` constructor standing for a raised exception whose text is Python's
`str(e)`) and returns the text the tool hands back to the dispatcher.

Python semantics embedded explicitly:
  * a dict key that may be absent is an `Option` field;
  * `str.strip()`, `str.lower()`, `len(str)`, `str.replace(' ', '-')` and
    `int(str)` are `pyStrip`, `pyLower`, `pyLen`, `replaceSpaceDash` and
    `pyInt` below, structural over the character list so that closed
    instances evaluate inside the kernel;
  * truthiness of an optional string (`None` and `""` falsy) is `strFalsy`.
-/

namespace Woo

/-- One element of a product's `meta_data` list: a JSON object with a
string `key` and a string `value`. -/
structure MetaEntry where
  key : String
  value : String
deriving Repr, DecidableEq

/-- One product image as `audit_product_images` reads it: the source only
accesses `image.get('alt', '')` and `image.get('name', '')`, so an absent
field and the empty string coincide here. -/
structure ImageRecord where
  alt : String
  name : String
deriving Repr, DecidableEq

/-- A category reference on a product (`{'id': ..., 'name': ...}`). -/
structure PCategory where
  id : Nat
  name : String
deriving Repr, DecidableEq

/-- A store category as `get_categories` returns it (the fields the server
reads). -/
structure CategoryRecord where
  id : Nat
  name : String
  count : Nat
  description : String
deriving Repr, DecidableEq

/-- A product as the store API returns it, restricted to the fields the
server reads. `stock_quantity`, `description` and `short_description` are
dict keys that may be absent (`none`). `ptype` is `product['type']`. -/
structure Product where
  id : Nat
  name : String
  status : String
  ptype : String := "simple"
  price : String := ""
  regular_price : String := ""
  sale_price : String := ""
  stock_status : String := ""
  stock_quantity : Option Nat := none
  description : Option String := none
  short_description : Option String := none
  meta_data : List MetaEntry := []
  categories : List PCategory := []
  images : List ImageRecord := []
deriving Repr, DecidableEq

/-- Python `c * n` (a separator line such as `'=' * 40`). -/
def repChar (n : Nat) (c : Char) : String :=
  ⟨List.replicate n c⟩

/-- Python `s.strip()`: whitespace removed from both ends. -/
def pyStrip (s : String) : String :=
  ⟨((s.data.dropWhile Char.isWhitespace).reverse.dropWhile Char.isWhitespace).reverse⟩

/-- Python `s.lower()` (ASCII case mapping, as `Char.toLower`). -/
def pyLower (s : String) : String :=
  ⟨s.data.map Char.toLower⟩

/-- Python `len(s)`: the number of characters. -/
def pyLen (s : String) : Nat :=
  s.data.length

/-- Python `s.replace(' ', '-')` (a single-character pattern, so a map). -/
def replaceSpaceDash (s : String) : String :=
  ⟨s.data.map (fun c => if c = ' ' then '-' else c)⟩

/-- Python truthiness of an optional string: `None` and `""` are falsy. -/
def strFalsy (o : Option String) : Bool :=
  o.getD "" == ""

/-- The value of a decimal digit list. -/
def digitsVal (l : List Char) : Nat :=
  l.foldl (fun n c => n * 10 + (c.toNat - Char.toNat '0')) 0

/-- Python `int(s)`: an optional minus sign then at least one digit, else a
`ValueError` (`none`). Surrounding whitespace, a plus sign and underscore
separators, which Python also accepts, are not modelled. -/
def pyInt (s : String) : Option Int :=
  match s.data with
  | [] => none
  | '-' :: rest =>
    if rest.isEmpty then none
    else if rest.all Char.isDigit then some (-(digitsVal rest : Int)) else none
  | l => if l.all Char.isDigit then some (digitsVal l : Int) else none

/-- `next((item['value'] for item in meta_data if item['key'] == k), None)`:
first-match-wins lookup of key `k` in the ordered meta entries. -/
def firstMetaValue (k : String) (md : List MetaEntry) : Option String :=
  (md.find? (fun item => item.key == k)).map (fun item => item.value)

/-- `not product.get('description', '').strip()` (server.py lines 180, 423). -/
def missingDescription (p : Product) : Bool :=
  pyStrip (p.description.getD "") == ""

/-- `not product.get('short_description', '').strip()` (lines 183, 426). -/
def missingShortDescription (p : Product) : Bool :=
  pyStrip (p.short_description.getD "") == ""

/-- `not seo_title or not seo_desc` after the two first-match lookups
(lines 187-191, 430-434): either SEO field absent or empty. -/
def missingSeoFirstMatch (p : Product) : Bool :=
  strFalsy (firstMetaValue "_yoast_wpseo_title" p.meta_data) ||
  strFalsy (firstMetaValue "_yoast_wpseo_metadesc" p.meta_data)

/-- `any(item['key'] == k and item.get('value') for item in meta_data)`
(lines 441-444): some entry with key `k` has a truthy value. -/
def anyMetaTruthy (k : String) (md : List MetaEntry) : Bool :=
  md.any (fun item => item.key == k && item.value != "")

/-- The inline condition of server.py lines 439-444: missing description, or
missing short description, or no truthy `_yoast_wpseo_title` entry, or no
truthy `_yoast_wpseo_metadesc` entry. -/
def needsOptimizationCond (p : Product) : Bool :=
  missingDescription p || missingShortDescription p ||
  !anyMetaTruthy "_yoast_wpseo_title" p.meta_data ||
  !anyMetaTruthy "_yoast_wpseo_metadesc" p.meta_data

/-- `len(set([i for i, product in enumerate(products) if ...]))`
(server.py lines 437-445). -/
def total_needing_optimization (products : List Product) : Nat :=
  (((products.enum.filter (fun ip => needsOptimizationCond ip.2)).map Prod.fst).dedup).length

/-- Lines 479-480 over exact rationals:
`(total - needing) / total * 100 if total > 0 else 100`. -/
def optimization_percentage (total_products total_needing : Nat) : ℚ :=
  if total_products > 0 then
    ((total_products : ℚ) - (total_needing : ℚ)) / (total_products : ℚ) * 100
  else 100

/-- The JSON patch payload `update_data`: dict keys modelled as options, and
the `meta_data` key present exactly when the built list is non-empty. -/
structure UpdatePayload where
  description : Option String := none
  short_description : Option String := none
  meta_data : List MetaEntry := []
deriving Repr, DecidableEq

/-- Dict truthiness of `update_data` (`if update_data:` / `if not update_data:`). -/
def payloadEmpty (u : UpdatePayload) : Bool :=
  u.description.isNone && u.short_description.isNone && u.meta_data.isEmpty

/-- One element of `updates` in `bulk_update_products`: a JSON object whose
keys may each be absent. `product_id` is kept as the raw text of the value,
since `int(update['product_id'])` may fail. -/
structure UpdateRequest where
  product_id : Option String := none
  description : Option String := none
  short_description : Option String := none
  meta_title : Option String := none
  meta_description : Option String := none
deriving Repr, DecidableEq

/-- Lines 246-268: the payload built for one bulk request. Key presence, not
truthiness, decides inclusion: a field present with value `""` is included. -/
def buildBulkPayload (u : UpdateRequest) : UpdatePayload :=
  { description := u.description
    short_description := u.short_description
    meta_data :=
      (match u.meta_title with
       | some v => [{ key := "_yoast_wpseo_title", value := v }]
       | none => []) ++
      (match u.meta_description with
       | some v => [{ key := "_yoast_wpseo_metadesc", value := v }]
       | none => []) }

/-- Lines 240-277: processing of one bulk request. `Except.ok` is an entry
appended to `results`, `Except.error` one appended to `errors`; the inner
`try/except` makes every path end in exactly one of the two. -/
def processUpdate (client : Int → UpdatePayload → Except String Product)
    (update : UpdateRequest) : Except String String :=
  match update.product_id with
  | none => Except.error "Missing product_id in update"
  | some raw =>
    match pyInt raw with
    | none =>
      Except.error ("Failed to update product ID " ++ raw ++
        ": invalid literal for int() with base 10: '" ++ raw ++ "'")
    | some product_id =>
      let update_data := buildBulkPayload update
      if payloadEmpty update_data then
        Except.error ("No update data for product ID " ++ toString product_id)
      else
        match client product_id update_data with
        | Except.ok updated =>
          Except.ok ("✅ Updated product ID " ++ toString product_id ++ ": " ++ updated.name)
        | Except.error e =>
          Except.error ("Failed to update product ID " ++ raw ++ ": " ++ e)

/-- The loop of lines 239-277: successes and errors accumulated in input
order into the two lists. -/
def bulkProcess (client : Int → UpdatePayload → Except String Product) :
    List UpdateRequest → List String × List String
  | [] => ([], [])
  | u :: rest =>
    let t := bulkProcess client rest
    match processUpdate client u with
    | Except.ok s => (s :: t.1, t.2)
    | Except.error e => (t.1, e :: t.2)

def joinLines (lines : List String) : String :=
  String.join (lines.map (fun l => l ++ "\n"))

/-- Lines 280-296: the bulk summary text. -/
def bulkSummary (results errors : List String) : String :=
  "Bulk Update Results\n" ++
  repChar 25 '=' ++ "\n\n" ++
  "Successfully updated: " ++ toString results.length ++ "\n" ++
  "Errors: " ++ toString errors.length ++ "\n\n" ++
  (if results.isEmpty then "" else "Successful Updates:\n" ++ joinLines results ++ "\n") ++
  (if errors.isEmpty then ""
   else "Errors:\n" ++ String.join (errors.map (fun e => "❌ " ++ e ++ "\n")))

/-- The tool `bulk_update_products` (lines 226-299). The outer `try/except`
(lines 298-299) only catches failures outside the per-request loop, of which
the typed embedding has none, so the summary is always returned. -/
def bulk_update_products (client : Int → UpdatePayload → Except String Product)
    (updates : List UpdateRequest) : String :=
  let t := bulkProcess client updates
  bulkSummary t.1 t.2

/-- Lines 110-132: `update_data` for the single-product tool, built with
Python truthiness (`if description:`): `None` and `""` are both skipped. -/
def build_update_data (description short_description meta_title meta_description :
    Option String) : UpdatePayload :=
  { description := if strFalsy description then none else description
    short_description := if strFalsy short_description then none else short_description
    meta_data :=
      (if strFalsy meta_title then []
       else [{ key := "_yoast_wpseo_title", value := meta_title.getD "" }]) ++
      (if strFalsy meta_description then []
       else [{ key := "_yoast_wpseo_metadesc", value := meta_description.getD "" }]) }

/-- The tool `update_product` (lines 100-155). -/
def update_product (client : Int → UpdatePayload → Except String Product)
    (product_id : Int)
    (description short_description meta_title meta_description : Option String) : String :=
  let update_data := build_update_data description short_description meta_title meta_description
  if payloadEmpty update_data then "Error: No update data provided"
  else
    match client product_id update_data with
    | Except.error e => "Error updating product: " ++ e
    | Except.ok updated =>
      "Successfully updated product ID " ++ toString product_id ++ ":\n\n" ++
      (if strFalsy description then "" else "✅ Description updated\n") ++
      (if strFalsy short_description then "" else "✅ Short description updated\n") ++
      (if strFalsy meta_title then "" else "✅ SEO title updated\n") ++
      (if strFalsy meta_description then "" else "✅ SEO description updated\n") ++
      "\nProduct: " ++ updated.name

/-- The query parameters `get_products` sends to the store collaborator
(lines 23-28). -/
structure GetParams where
  per_page : Nat
  status : Option String := none
  category : Option Int := none
deriving Repr, DecidableEq

/-- Lines 44-51: the missing-content check of `get_products` for one product.
`product.get('description')` and `product.get('short_description')` carry NO
default, so an absent key makes the following `.strip()` raise
`AttributeError` (`Except.error` with Python's `str(e)` text). -/
def missingContentLine (p : Product) : Except String String :=
  match p.description with
  | none => Except.error "'NoneType' object has no attribute 'strip'"
  | some d =>
    match p.short_description with
    | none => Except.error "'NoneType' object has no attribute 'strip'"
    | some sd =>
      let missing_content :=
        (if pyStrip d == "" then ["description"] else []) ++
        (if pyStrip sd == "" then ["short description"] else [])
      if missing_content.isEmpty then Except.ok ""
      else Except.ok ("Missing content: " ++ String.intercalate ", " missing_content ++ "\n")

/-- Lines 38-43: the fixed per-product lines of the `get_products` listing. -/
def productLines (p : Product) : String :=
  "ID: " ++ toString p.id ++ "\n" ++
  "Name: " ++ p.name ++ "\n" ++
  "Status: " ++ p.status ++ "\n" ++
  "Price: " ++ p.price ++ "\n" ++
  "Stock Status: " ++ p.stock_status ++ "\n"

/-- The body of the `get_products` loop (lines 37-53), one product at a time
and in order; the first absent description aborts with the `AttributeError`. -/
def get_products_lines : List Product → Except String String
  | [] => Except.ok ""
  | p :: rest =>
    match missingContentLine p with
    | Except.error e => Except.error e
    | Except.ok extra =>
      match get_products_lines rest with
      | Except.error e => Except.error e
      | Except.ok tail => Except.ok (productLines p ++ extra ++ "\n" ++ tail)

/-- The `try` block of `get_products` (lines 21-55). -/
def get_products_body (fetch : GetParams → Except String (List Product))
    (status : Option String) (category : Option Int) (per_page : Nat) :
    Except String String :=
  let params : GetParams :=
    { per_page := min per_page 100
      status := if strFalsy status then none else status
      category := if category.getD 0 == 0 then none else category }
  match fetch params with
  | Except.error e => Except.error e
  | Except.ok products =>
    if products.isEmpty then Except.ok "No products matched the query."
    else
      match get_products_lines products with
      | Except.error e => Except.error e
      | Except.ok lines =>
        Except.ok ("found " ++ toString products.length ++ " products:\n\n" ++ lines)

/-- The tool `get_products` (lines 19-57). -/
def get_products (fetch : GetParams → Except String (List Product))
    (status : Option String) (category : Option Int) (per_page : Nat) : String :=
  match get_products_body fetch status category per_page with
  | Except.ok s => s
  | Except.error e => "Error fetching products: " ++ e

/-- `seo_title or 'Not set'` (lines 85-86). -/
def seoDisplay (o : Option String) : String :=
  if strFalsy o then "Not set" else o.getD ""

/-- The `try` block of `get_product_by_id` (lines 62-94). -/
def get_product_by_id_body (fetch : Nat → Except String Product)
    (product_id : Nat) : Except String String :=
  match fetch product_id with
  | Except.error e => Except.error e
  | Except.ok product =>
    Except.ok ("Product Details (ID: " ++ toString product.id ++ ")\n" ++
      repChar 40 '=' ++ "\n\n" ++
      "Name: " ++ product.name ++ "\n" ++
      "Status: " ++ product.status ++ "\n" ++
      "Type: " ++ product.ptype ++ "\n" ++
      "Price: " ++ product.price ++ "\n" ++
      "Regular Price: " ++ product.regular_price ++ "\n" ++
      "Sale Price: " ++ product.sale_price ++ "\n" ++
      "Stock Status: " ++ product.stock_status ++ "\n" ++
      "Stock Quantity: " ++
        (match product.stock_quantity with
         | none => "N/A"
         | some q => toString q) ++ "\n\n" ++
      "Description:\n" ++ product.description.getD "No description" ++ "\n\n" ++
      "Short Description:\n" ++
        product.short_description.getD "No short description" ++ "\n\n" ++
      "SEO Title: " ++
        seoDisplay (firstMetaValue "_yoast_wpseo_title" product.meta_data) ++ "\n" ++
      "SEO Description: " ++
        seoDisplay (firstMetaValue "_yoast_wpseo_metadesc" product.meta_data) ++ "\n\n" ++
      (if product.categories.isEmpty then ""
       else "Categories:\n" ++ String.join (product.categories.map (fun cat =>
         "  - " ++ cat.name ++ " (ID: " ++ toString cat.id ++ ")\n"))))

/-- The tool `get_product_by_id` (lines 60-97). -/
def get_product_by_id (fetch : Nat → Except String Product) (product_id : Nat) : String :=
  match get_product_by_id_body fetch product_id with
  | Except.ok s => s
  | Except.error e => "Error fetching product: " ++ e

/-- Lines 199-218: a listing truncated to the first 10 entries with a
`... and N more` marker. -/
def listingLines (items : List Product) : String :=
  String.join ((items.take 10).map (fun p =>
    "  - ID " ++ toString p.id ++ ": " ++ p.name ++ "\n")) ++
  (if items.length > 10 then "  ... and " ++ toString (items.length - 10) ++ " more\n"
   else "")

/-- The `try` block of `analyze_products` (lines 159-220). -/
def analyze_products_body (fetch : Nat → Except String (List Product))
    (per_page : Nat) : Except String String :=
  match fetch (min per_page 100) with
  | Except.error e => Except.error e
  | Except.ok products =>
    if products.isEmpty then Except.ok "No products found to analyze."
    else
      let missing_description := products.filter missingDescription
      let missing_short_description := products.filter missingShortDescription
      let missing_seo := products.filter missingSeoFirstMatch
      Except.ok ("Products Analysis:\n\n" ++
        repChar 30 '=' ++ "\n\n" ++
        "Analyzed " ++ toString products.length ++ " products\n\n" ++
        "📝 Missing Descriptions: " ++ toString missing_description.length ++ "\n" ++
        (if missing_description.isEmpty then "" else listingLines missing_description) ++
        "\n📄 Missing Short Descriptions: " ++
          toString missing_short_description.length ++ "\n" ++
        (if missing_short_description.isEmpty then ""
         else listingLines missing_short_description) ++
        "\n🔍 Missing SEO Data: " ++ toString missing_seo.length ++ "\n" ++
        (if missing_seo.isEmpty then "" else listingLines missing_seo))

/-- The tool `analyze_products` (lines 157-223). -/
def analyze_products (fetch : Nat → Except String (List Product)) (per_page : Nat) : String :=
  match analyze_products_body fetch per_page with
  | Except.ok s => s
  | Except.error e => "Error analyzing products: " ++ e

/-- Lines 332-353, translated directly: the (issues, suggestions,
good practices) appended while auditing one image (`image_num` is the
1-indexed display position): first the alt-text `if/elif/elif/else` chain,
then the independent name check. -/
def auditImage (product_name : String) (image_num : Nat) (image : ImageRecord) :
    List String × List String × List String :=
  let alt_text := pyStrip image.alt
  let image_name := pyStrip image.name
  let altPart : List String × List String × List String :=
    if alt_text == "" then
      (["❌ Image " ++ toString image_num ++ " missing alt text"],
       ["Add alt text: '" ++ product_name ++ " - product view " ++ toString image_num ++ "'"],
       [])
    else if pyLen alt_text < 10 then
      (["⚠️ Image " ++ toString image_num ++ " alt text too short: '" ++ alt_text ++ "'"],
       ["Expand alt text to be more descriptive (10+ characters)"],
       [])
    else if pyLower alt_text == pyLower product_name then
      (["⚠️ Image " ++ toString image_num ++ " alt text is just product name"],
       ["Make alt text more descriptive: '" ++ product_name ++ " - [describe what's shown]'"],
       [])
    else
      ([], [], ["✅ Image " ++ toString image_num ++ " has good alt text"])
  let namePart : List String × List String :=
    if image_name == "" || ["image", "img", "photo", "picture"].contains (pyLower image_name) then
      (["⚠️ Image " ++ toString image_num ++ " has generic or missing name"],
       ["Use descriptive filename: '" ++ replaceSpaceDash (pyLower product_name) ++ "-" ++
          toString image_num ++ "'"])
    else ([], [])
  (altPart.1 ++ namePart.1, altPart.2.1 ++ namePart.2, altPart.2.2)

/-- The alt-text component of `auditImage`'s issue list: the ordered
`if/elif/elif` chain of lines 338-346, a function of the alt text alone. -/
def altIssues (product_name : String) (image_num : Nat) (alt : String) : List String :=
  let alt_text := pyStrip alt
  if alt_text == "" then ["❌ Image " ++ toString image_num ++ " missing alt text"]
  else if pyLen alt_text < 10 then
    ["⚠️ Image " ++ toString image_num ++ " alt text too short: '" ++ alt_text ++ "'"]
  else if pyLower alt_text == pyLower product_name then
    ["⚠️ Image " ++ toString image_num ++ " alt text is just product name"]
  else []

/-- The alt-text component of `auditImage`'s suggestion list (same chain). -/
def altSuggestions (product_name : String) (image_num : Nat) (alt : String) : List String :=
  let alt_text := pyStrip alt
  if alt_text == "" then
    ["Add alt text: '" ++ product_name ++ " - product view " ++ toString image_num ++ "'"]
  else if pyLen alt_text < 10 then
    ["Expand alt text to be more descriptive (10+ characters)"]
  else if pyLower alt_text == pyLower product_name then
    ["Make alt text more descriptive: '" ++ product_name ++ " - [describe what's shown]'"]
  else []

/-- The good-practice entry of the alt-text chain's final `else` (line 348). -/
def altGood (product_name : String) (image_num : Nat) (alt : String) : List String :=
  let alt_text := pyStrip alt
  if alt_text == "" then []
  else if pyLen alt_text < 10 then []
  else if pyLower alt_text == pyLower product_name then []
  else ["✅ Image " ++ toString image_num ++ " has good alt text"]

/-- Line 351: `not image_name or image_name.lower() in [...]`, a function of
the image name alone. -/
def genericName (name : String) : Bool :=
  pyStrip name == "" ||
  ["image", "img", "photo", "picture"].contains (pyLower (pyStrip name))

/-- The name-check component of `auditImage`'s issue list (line 352). -/
def nameIssues (image_num : Nat) (name : String) : List String :=
  if genericName name then
    ["⚠️ Image " ++ toString image_num ++ " has generic or missing name"]
  else []

/-- The name-check component of `auditImage`'s suggestion list (line 353). -/
def nameSuggestions (product_name : String) (image_num : Nat) (name : String) : List String :=
  if genericName name then
    ["Use descriptive filename: '" ++ replaceSpaceDash (pyLower product_name) ++ "-" ++
       toString image_num ++ "'"]
  else []

/-- The per-image loop (line 332), `image_num` counting up from the given
start; all three lists accumulate in image order. -/
def auditImagesFrom (product_name : String) (image_num : Nat) :
    List ImageRecord → List String × List String × List String
  | [] => ([], [], [])
  | img :: rest =>
    let h := auditImage product_name image_num img
    let t := auditImagesFrom product_name (image_num + 1) rest
    (h.1 ++ t.1, h.2.1 ++ t.2.1, h.2.2 ++ t.2.2)

/-- All images audited, 1-indexed (Python `enumerate` with `i + 1`). -/
def auditImages (product_name : String) (images : List ImageRecord) :
    List String × List String × List String :=
  auditImagesFrom product_name 1 images

def bulletLines (items : List String) : String :=
  String.join (items.map (fun s => "  • " ++ s ++ "\n"))

/-- Lines 355-393: the audit report for a product with at least one image. -/
def audit_report (product_name : String) (images : List ImageRecord) : String :=
  let r := auditImages product_name images
  "\n🖼️ Image SEO Audit for: " ++ product_name ++ "\n" ++
  repChar 50 '=' ++ "\n\n" ++
  "📊 Summary:\n" ++
  "  • Total Images: " ++ toString images.length ++ "\n" ++
  "  • Issues Found: " ++ toString r.1.length ++ "\n" ++
  "  • Good Practices: " ++ toString r.2.2.length ++ "\n\n" ++
  (if r.1.isEmpty then "" else "❌ Issues Found:\n" ++ bulletLines r.1 ++ "\n") ++
  (if r.2.1.isEmpty then "" else "💡 Suggestions:\n" ++ bulletLines r.2.1 ++ "\n") ++
  (if r.2.2.isEmpty then "" else "✅ Good Practices:\n" ++ bulletLines r.2.2 ++ "\n") ++
  "🎯 SEO Best Practices:\n" ++
  "  • Alt text should describe what's in the image\n" ++
  "  • Include product name + descriptive details\n" ++
  "  • Keep alt text under 125 characters\n" ++
  "  • Use keywords naturally, don't stuff\n" ++
  "  • Consider image file size for page speed\n"

/-- The tool `audit_product_images` (lines 302-396). The fetch collaborator
may fail (raise), return a falsy product (`none`, line 314) or return the
product. -/
def audit_product_images (fetch : Nat → Except String (Option Product))
    (product_id : Nat) : String :=
  match fetch product_id with
  | Except.error e => "Error auditing product images: " ++ e
  | Except.ok none => "❌ Product " ++ toString product_id ++ " not found"
  | Except.ok (some product) =>
    if product.images.isEmpty then
      "\n🖼️ Image SEO Audit for: " ++ product.name ++ "\n" ++
      repChar 50 '=' ++
      "\n\n❌ Critical Issue: No images found!\n\nSuggestions:\n• " ++
      "Add at least 1-3 high-quality images for '" ++ product.name ++ "'" ++
      "\n• Images improve conversion rates by 30-40%" ++
      "\n• Add main product image, detail shots, and lifestyle images"
    else audit_report product.name product.images

/-- Display rounding of the exact store score to one decimal (the Python
`:.1f` float formatting, modelled as rounding of the rational). -/
def formatScore (q : ℚ) : String :=
  let t : ℤ := round (q * 10)
  toString (t / 10) ++ "." ++ toString (t % 10).natAbs ++ "%"

/-- Lines 405-483: the statistics text built from the two fetched lists. -/
def store_stats_content (products : List Product) (categories : List CategoryRecord) :
    String :=
  let total_products := products.length
  let missing_description := (products.filter missingDescription).length
  let missing_seo := (products.filter missingSeoFirstMatch).length
  let published_products := (products.filter (fun p => p.status == "publish")).length
  let draft_products := (products.filter (fun p => p.status == "draft")).length
  let needing := total_needing_optimization products
  "WooCommerce Store Statistics\n" ++
  "        ===============================\n\n" ++
  "        📊 Product Overview:\n" ++
  "          Total Products: " ++ toString total_products ++ "\n" ++
  "          Published: " ++ toString published_products ++ "\n" ++
  "          Drafts: " ++ toString draft_products ++ "\n\n" ++
  "        🔧 Optimization Opportunities:\n" ++
  "          Products Needing Work: " ++ toString needing ++ "\n" ++
  "          Missing Descriptions: " ++ toString missing_description ++ "\n" ++
  "          Missing Short Descriptions: " ++
    toString (products.filter missingShortDescription).length ++ "\n" ++
  "          Missing SEO Data: " ++ toString missing_seo ++ "\n\n" ++
  "        📁 Categories:\n" ++
  "          Total Categories: " ++ toString categories.length ++ "\n\n" ++
  "        🎯 Priority Actions:\n        " ++
  (if needing > 0 then
    "  • " ++ toString needing ++ " products need content optimization\n" else "") ++
  (if missing_seo > 0 then
    "  • " ++ toString missing_seo ++ " products missing SEO metadata\n" else "") ++
  (if missing_description > 0 then
    "  • " ++ toString missing_description ++ " products need descriptions\n" else "") ++
  (if needing == 0 then "  • All products are well-optimized! 🎉\n" else "") ++
  "\n📈 Store Optimization Score: " ++
  formatScore (optimization_percentage total_products needing)

/-- The resource `store_stats` (lines 400-486). The two collaborator calls
(products then categories) are passed as their outcomes; a failure of either
is caught at the boundary (lines 485-486). -/
def store_stats (fetchProducts : Except String (List Product))
    (fetchCategories : Except String (List CategoryRecord)) : String :=
  match fetchProducts with
  | Except.error e => "Error fetching store statistics: " ++ e
  | Except.ok products =>
    match fetchCategories with
    | Except.error e => "Error fetching store statistics: " ++ e
    | Except.ok categories => store_stats_content products categories

/-- The needs-optimization count as claim C1 words it, for comparison with
`total_needing_optimization`: this definition follows the claim's words
(first-match-wins SEO lookup, as in `missingSeoFirstMatch`), not the source
of lines 437-445. -/
def claimNeedsOptimizationCount (products : List Product) : Nat :=
  (products.filter (fun p =>
    missingDescription p || missingShortDescription p || missingSeoFirstMatch p)).length

/-- The success entry a per-request outcome contributes, if any. -/
def okEntry (r : Except String String) : Option String :=
  match r with
  | Except.ok s => some s
  | Except.error _ => none

/-- The error entry a per-request outcome contributes, if any. -/
def errEntry (r : Except String String) : Option String :=
  match r with
  | Except.ok _ => none
  | Except.error e => some e

/-- A concrete product used by witnesses for the collaborator's return value. -/
def witnessProduct : Product :=
  { id := 5, name := "Widget", status := "publish" }

/-- A product whose first `_yoast_wpseo_title` entry is empty while a later
duplicate entry carries a value; both content fields are present. -/
def dupSeoProduct : Product :=
  { id := 1, name := "P", status := "publish",
    description := some "desc", short_description := some "short",
    meta_data := [{ key := "_yoast_wpseo_title", value := "" },
                  { key := "_yoast_wpseo_title", value := "T" },
                  { key := "_yoast_wpseo_metadesc", value := "D" }] }

/-- A product whose `description` key is absent (`product.get('description')`
returns `None` in `get_products`). -/
def absentDescProduct : Product :=
  { id := 1, name := "Mug", status := "publish", price := "9",
    stock_status := "instock", description := none, short_description := some "x" }

/-- The same product with `description` (and `short_description`) present but
empty. -/
def emptyDescProduct : Product :=
  { id := 1, name := "Mug", status := "publish", price := "9",
    stock_status := "instock", description := some "", short_description := some "" }

/-- C2 counterexample: for product name "Red Mug" and the one image with alt
text "Red Mug" and name "img", the audit does NOT produce the issue
"alt text is just product name": "Red Mug" has 7 characters, so the ordered
checks fire the too-short branch before the equals-product-name branch. -/
theorem redMug_audit_no_just_product_name_issue :
    ¬ ("⚠️ Image 1 alt text is just product name" ∈
        (auditImages "Red Mug" [{ alt := "Red Mug", name := "img" }]).1) := by
  decide

/-- C2 amended: `auditImages "Red Mug" [{altText := "Red Mug", name := "img"}]`
produces the issue "alt text too short" (the alt text is non-empty and under
10 characters) together with the generic-name issue for "img"; total issues
2, good practices 0. -/
theorem redMug_audit_issues :
    (auditImages "Red Mug" [{ alt := "Red Mug", name := "img" }]).1 =
      ["⚠️ Image 1 alt text too short: 'Red Mug'",
       "⚠️ Image 1 has generic or missing name"] ∧
    (auditImages "Red Mug" [{ alt := "Red Mug", name := "img" }]).1.length = 2 ∧
    (auditImages "Red Mug" [{ alt := "Red Mug", name := "img" }]).2.2 = [] := by
  refine ⟨by decide, by decide, by decide⟩

/-- C5: a bulk request whose `product_id` parses as an integer but which has
none of `description`, `short_description`, `meta_title`, `meta_description`
yields exactly the one error entry "No update data for product ID X", and the
update collaborator is never invoked for it: the outcome is the same under
every collaborator. -/
theorem bulk_no_update_data (client client' : Int → UpdatePayload → Except String Product)
    (raw : String) (pid : Int) (h : pyInt raw = some pid) :
    processUpdate client { product_id := some raw } =
        Except.error ("No update data for product ID " ++ toString pid) ∧
    processUpdate client { product_id := some raw } =
        processUpdate client' { product_id := some raw } ∧
    bulkProcess client [{ product_id := some raw }] =
        ([], ["No update data for product ID " ++ toString pid]) := by
  have hp : ∀ c : Int → UpdatePayload → Except String Product,
      processUpdate c { product_id := some raw } =
        Except.error ("No update data for product ID " ++ toString pid) := by
    intro c
    simp [processUpdate, h, buildBulkPayload, payloadEmpty]
  refine ⟨hp client, (hp client).trans (hp client').symm, ?_⟩
  simp [bulkProcess, hp client]

/-- C5 witness: the theorem applied at the request `{product_id := "7"}` and
two concrete collaborators. -/
theorem bulk_no_update_data_witness :
    processUpdate (fun _ _ => Except.error "boom") { product_id := some "7" } =
      Except.error ("No update data for product ID " ++ toString (7 : Int)) :=
  (bulk_no_update_data (fun _ _ => Except.error "boom")
    (fun _ _ => Except.ok witnessProduct) "7" 7 (by decide)).1

/-- C9: a bulk request carrying both `meta_title` and `meta_description`
yields a payload whose meta entries are exactly the Yoast title entry then
the Yoast description entry, values as supplied. -/
theorem bulk_meta_roundtrip (u : UpdateRequest) (mt md : String)
    (h1 : u.meta_title = some mt) (h2 : u.meta_description = some md) :
    (buildBulkPayload u).meta_data =
      [{ key := "_yoast_wpseo_title", value := mt },
       { key := "_yoast_wpseo_metadesc", value := md }] := by
  simp [buildBulkPayload, h1, h2]

/-- C9 witness: the theorem applied at a concrete request. -/
theorem bulk_meta_roundtrip_witness :
    (buildBulkPayload
      { product_id := some "1", meta_title := some "T", meta_description := some "D" }).meta_data =
      [{ key := "_yoast_wpseo_title", value := "T" },
       { key := "_yoast_wpseo_metadesc", value := "D" }] :=
  bulk_meta_roundtrip
    { product_id := some "1", meta_title := some "T", meta_description := some "D" }
    "T" "D" rfl rfl

/-- C6: the store optimization score, over exact rationals, is 100 when the
total product count is 0 and `(total - needsOptimization) / total * 100`
otherwise. -/
theorem store_score_formula (products : List Product) :
    optimization_percentage products.length (total_needing_optimization products) =
      if products.length = 0 then (100 : ℚ)
      else ((products.length : ℚ) - (total_needing_optimization products : ℚ)) /
        (products.length : ℚ) * 100 := by
  unfold optimization_percentage
  rcases Nat.eq_zero_or_pos products.length with h | h
  · simp [h]
  · rw [if_pos h, if_neg (Nat.pos_iff_ne_zero.mp h)]

/-- C3: every public operation catches collaborator failures at its own
boundary and returns a descriptive error text (each operation is total into
`String` by construction; here each collaborator failure is shown to become
the operation's formatted error message, and the bulk operation is shown to
always return its summary, per-request failures staying inside the loop). -/
theorem operations_never_propagate :
    (∀ (st : Option String) (cat : Option Int) (pp : Nat) (e : String),
        get_products (fun _ => Except.error e) st cat pp =
          "Error fetching products: " ++ e) ∧
    (∀ (pid : Nat) (e : String),
        get_product_by_id (fun _ => Except.error e) pid =
          "Error fetching product: " ++ e) ∧
    (∀ (pid : Int) (d sd mt md : Option String) (e : String),
        update_product (fun _ _ => Except.error e) pid d sd mt md =
          if payloadEmpty (build_update_data d sd mt md) then
            "Error: No update data provided"
          else "Error updating product: " ++ e) ∧
    (∀ (pp : Nat) (e : String),
        analyze_products (fun _ => Except.error e) pp =
          "Error analyzing products: " ++ e) ∧
    (∀ (client : Int → UpdatePayload → Except String Product)
        (updates : List UpdateRequest),
        ∃ rest, bulk_update_products client updates =
          "Bulk Update Results\n" ++ rest) ∧
    (∀ (pid : Nat) (e : String),
        audit_product_images (fun _ => Except.error e) pid =
          "Error auditing product images: " ++ e) ∧
    (∀ (e : String) (cats : Except String (List CategoryRecord)),
        store_stats (Except.error e) cats = "Error fetching store statistics: " ++ e) ∧
    (∀ (products : List Product) (e : String),
        store_stats (Except.ok products) (Except.error e) =
          "Error fetching store statistics: " ++ e) := by
  refine ⟨fun _ _ _ _ => rfl, fun _ _ => rfl, ?_, fun _ _ => rfl, ?_,
    fun _ _ => rfl, fun _ _ => rfl, fun _ _ => rfl⟩
  · intro pid d sd mt md e
    unfold update_product
    dsimp only
  · intro client updates
    unfold bulk_update_products bulkSummary
    exact ⟨_, rfl⟩

/-- C4: the bulk loop processes each request independently: the two result
lists are exactly the success entries and the error entries each request
contributes on its own, partitioned in input order, and every request
contributes exactly one entry (so a failure never prevents processing of the
remaining requests). -/
theorem bulk_partitions_in_order (client : Int → UpdatePayload → Except String Product)
    (updates : List UpdateRequest) :
    bulkProcess client updates =
      (updates.filterMap (fun u => okEntry (processUpdate client u)),
       updates.filterMap (fun u => errEntry (processUpdate client u))) ∧
    (bulkProcess client updates).1.length + (bulkProcess client updates).2.length =
      updates.length := by
  induction updates with
  | nil => exact ⟨rfl, rfl⟩
  | cons u rest ih =>
    obtain ⟨ih1, ih2⟩ := ih
    cases hpu : processUpdate client u with
    | ok s =>
      constructor
      · simp [bulkProcess, hpu, List.filterMap_cons, okEntry, errEntry, ih1]
      · simp only [bulkProcess, hpu]
        simp only [List.length_cons]
        omega
    | error e =>
      constructor
      · simp [bulkProcess, hpu, List.filterMap_cons, okEntry, errEntry, ih1]
      · simp only [bulkProcess, hpu]
        simp only [List.length_cons]
        omega

/-- The filtered enumeration keeps as many entries as the plain filter. -/
lemma length_filter_enumFrom {α : Type} (p : α → Bool) (l : List α) :
    ∀ n : Nat,
      ((List.enumFrom n l).filter (fun ip => p ip.2)).length = (l.filter p).length := by
  induction l with
  | nil => intro n; rfl
  | cons a t ih =>
    intro n
    rw [List.enumFrom_cons, List.filter_cons, List.filter_cons]
    by_cases hp : p a <;> simp [hp, ih]

/-- The indices surviving the filter are pairwise distinct. -/
lemma nodup_filter_enumFrom_fst {α : Type} (p : α → Bool) (l : List α) (n : Nat) :
    ((((List.enumFrom n l).filter (fun ip => p ip.2)).map Prod.fst)).Nodup := by
  have hsub : ((((List.enumFrom n l).filter (fun ip => p ip.2)).map Prod.fst)).Sublist
      ((List.enumFrom n l).map Prod.fst) :=
    (List.filter_sublist _).map _
  rw [List.enumFrom_map_fst] at hsub
  exact hsub.nodup (List.nodup_range' _ _)

/-- C1 counterexample: on `dupSeoProduct` (first title entry empty, a later
duplicate non-empty, both content fields present) the store-stats composite
count is 0 while the first-match-wins reading the claim states gives 1. -/
theorem needsOptimization_not_first_match :
    total_needing_optimization [dupSeoProduct] = 0 ∧
    claimNeedsOptimizationCount [dupSeoProduct] = 1 ∧
    total_needing_optimization [dupSeoProduct] ≠
      claimNeedsOptimizationCount [dupSeoProduct] := by
  refine ⟨by decide, by decide, by decide⟩

/-- C1 amended: the composite count equals the number of products with at
least one of missing description, missing short description, or missing SEO,
where missing SEO is the any-match condition: no meta entry at all with key
`_yoast_wpseo_title` (resp. `_yoast_wpseo_metadesc`) and a non-empty value.
`lowQualityDescription` plays no part in the predicate. -/
theorem needsOptimization_count_characterization (products : List Product) :
    total_needing_optimization products =
      (products.filter needsOptimizationCond).length ∧
    ∀ p : Product, needsOptimizationCond p = true ↔
      (missingDescription p = true ∨ missingShortDescription p = true ∨
        (∀ e ∈ p.meta_data, e.key = "_yoast_wpseo_title" → e.value = "") ∨
        (∀ e ∈ p.meta_data, e.key = "_yoast_wpseo_metadesc" → e.value = "")) := by
  constructor
  · unfold total_needing_optimization
    show ((((List.enumFrom 0 products).filter
        (fun ip => needsOptimizationCond ip.2)).map Prod.fst).dedup).length = _
    rw [List.dedup_eq_self.mpr (nodup_filter_enumFrom_fst needsOptimizationCond products 0)]
    rw [List.length_map]
    exact length_filter_enumFrom needsOptimizationCond products 0
  · intro p
    simp only [needsOptimizationCond, anyMetaTruthy, Bool.or_eq_true, Bool.not_eq_true',
      List.any_eq_false, Bool.and_eq_true, beq_iff_eq, bne_iff_ne, ne_eq, not_and, not_not]
    tauto

/-- C8: per image, the audit output splits into an alt-text part (a function
of the alt text alone, the ordered chain missing / too short / equals product
name / good) and a name part (a function of the image name alone); exactly
one alt-text outcome fires, and the generic-name issue fires exactly when the
name condition holds, whatever the alt text. -/
theorem audit_image_outcomes (product_name : String) (image_num : Nat)
    (image : ImageRecord) :
    auditImage product_name image_num image =
      (altIssues product_name image_num image.alt ++ nameIssues image_num image.name,
       altSuggestions product_name image_num image.alt ++
         nameSuggestions product_name image_num image.name,
       altGood product_name image_num image.alt) ∧
    (altIssues product_name image_num image.alt).length +
      (altGood product_name image_num image.alt).length = 1 ∧
    (nameIssues image_num image.name).length =
      (if genericName image.name = true then 1 else 0) := by
  refine ⟨?_, ?_, ?_⟩
  · unfold auditImage altIssues altSuggestions altGood nameIssues nameSuggestions genericName
    dsimp only
    by_cases h1 : pyStrip image.alt == "" <;>
      by_cases h2 : pyLen (pyStrip image.alt) < 10 <;>
      by_cases h3 : pyLower (pyStrip image.alt) == pyLower product_name <;>
      simp [h1, h2, h3, apply_ite]
  · unfold altIssues altGood
    dsimp only
    by_cases h1 : pyStrip image.alt == "" <;>
      by_cases h2 : pyLen (pyStrip image.alt) < 10 <;>
      by_cases h3 : pyLower (pyStrip image.alt) == pyLower product_name <;>
      simp [h1, h2, h3]
  · cases hb : genericName image.name <;> simp [nameIssues, hb]

/-- C7: `get_products` and `analyze_products` both classify a product with an
empty description as missing, but `get_products` reads the key with no
default (line 45), so a product whose description key is ABSENT makes the
whole listing fail with the converted `AttributeError` text instead of being
classified as missing; `analyze_products` (line 180, default `''`) treats the
same product as missing and completes normally. -/
theorem get_products_absent_description_crashes :
    get_products (fun _ => Except.ok [absentDescProduct]) none none 10 =
      "Error fetching products: 'NoneType' object has no attribute 'strip'" ∧
    get_products (fun _ => Except.ok [emptyDescProduct]) none none 10 =
      "found 1 products:\n\nID: 1\nName: Mug\nStatus: publish\nPrice: 9\nStock Status: instock\nMissing content: description, short description\n\n" ∧
    missingDescription absentDescProduct = true ∧
    missingDescription emptyDescProduct = true ∧
    (okEntry (analyze_products_body (fun _ => Except.ok [absentDescProduct]) 50)).isSome =
      true := by
  refine ⟨rfl, by decide, rfl, rfl, rfl⟩

/-- A truthiness-guarded field is never stored as the empty string. -/
lemma truthy_guard_ne_empty (o : Option String) :
    (if strFalsy o then none else o) ≠ some "" := by
  cases o with
  | none => simp
  | some s =>
    by_cases h : s = ""
    · subst h; simp [strFalsy]
    · simp [strFalsy, h]

/-- A field that passes the truthiness guard has a non-empty text. -/
lemma truthy_getD_ne_empty (o : Option String) (h : strFalsy o = false) :
    o.getD "" ≠ "" := by
  cases o with
  | none => simp [strFalsy] at h
  | some s => simpa [strFalsy] using h

/-- C10: `update_product` treats an empty-string field like an absent one:
when all four fields are absent or empty it returns
"Error: No update data provided" without invoking the collaborator (the
result is the same under every collaborator), and in general no empty string
can appear in the payload it builds — unlike the bulk payload, which keeps a
present-but-empty field. -/
theorem update_product_empty_is_absent
    (client client' : Int → UpdatePayload → Except String Product) (pid : Int)
    (d sd mt md : Option String)
    (hd : d = none ∨ d = some "") (hsd : sd = none ∨ sd = some "")
    (hmt : mt = none ∨ mt = some "") (hmd : md = none ∨ md = some "") :
    update_product client pid d sd mt md = "Error: No update data provided" ∧
    update_product client pid d sd mt md = update_product client' pid d sd mt md ∧
    (∀ d' sd' mt' md' : Option String,
        (build_update_data d' sd' mt' md').description ≠ some "" ∧
        (build_update_data d' sd' mt' md').short_description ≠ some "" ∧
        ∀ m ∈ (build_update_data d' sd' mt' md').meta_data, m.value ≠ "") ∧
    (buildBulkPayload { product_id := some "1", description := some "" }).description =
      some "" := by
  have hempty : build_update_data d sd mt md = {} := by
    rcases hd with rfl | rfl <;> rcases hsd with rfl | rfl <;>
      rcases hmt with rfl | rfl <;> rcases hmd with rfl | rfl <;> rfl
  have hmain : ∀ c : Int → UpdatePayload → Except String Product,
      update_product c pid d sd mt md = "Error: No update data provided" := by
    intro c
    unfold update_product
    rw [hempty]
    rfl
  refine ⟨hmain client, (hmain client).trans (hmain client').symm, ?_, rfl⟩
  intro d' sd' mt' md'
  refine ⟨truthy_guard_ne_empty d', truthy_guard_ne_empty sd', ?_⟩
  intro m hm
  simp only [build_update_data, List.mem_append] at hm
  rcases hm with hm | hm
  · by_cases h : strFalsy mt' = true
    · simp [h] at hm
    · rw [if_neg h] at hm
      simp only [List.mem_singleton] at hm
      subst hm
      exact truthy_getD_ne_empty mt' (Bool.not_eq_true _ ▸ h)
  · by_cases h : strFalsy md' = true
    · simp [h] at hm
    · rw [if_neg h] at hm
      simp only [List.mem_singleton] at hm
      subst hm
      exact truthy_getD_ne_empty md' (Bool.not_eq_true _ ▸ h)

/-- C10 witness: the theorem applied with all four fields absent or empty and
two concrete collaborators. -/
theorem update_product_empty_is_absent_witness :
    update_product (fun _ _ => Except.error "boom") 3 none (some "") none (some "") =
      "Error: No update data provided" :=
  (update_product_empty_is_absent (fun _ _ => Except.error "boom")
    (fun _ _ => Except.ok witnessProduct) 3 none (some "") none (some "")
    (Or.inl rfl) (Or.inr rfl) (Or.inl rfl) (Or.inr rfl)).1

end Woo
